import Mathlib

/-!
Shallow embedding of the cooperative coroutine runtime in
src/basic/Coroutine/include/coroutine/ (task.h, channels.h, scheduler.h).

The embedding follows the C++ coroutine await protocol precisely: for
`co_await e`, the compiler first evaluates `e.await_ready()`.  If it returns
`true`, the coroutine is NOT suspended and `e.await_suspend` is NOT called;
control goes directly to `e.await_resume()`.  If it returns `false`, the
coroutine is suspended and `e.await_suspend(handle)` runs; when that function
returns `void`, the coroutine stays suspended until some other party resumes
its handle.  An exception thrown from `await_suspend` propagates out of the
`co_await` expression.

Coroutine handles (`std::coroutine_handle<>`) are modelled as identifiers
carrying their `done()` flag; a nullable handle is `Option CoroHandle`.
Mutex acquisition is dropped: each modelled operation is one atomic step of
the state, which is exactly what the per-channel / per-scheduler mutex
guarantees for the real code.
-/

namespace CoroRT

/-- Model of `std::coroutine_handle<>`: an identity plus the `done()` flag. -/
structure CoroHandle where
  id : Nat
  done : Bool
  deriving DecidableEq

/-! ## Channel (src/basic/Coroutine/include/coroutine/channels.h) -/

/-- `Channel<T>::SendWaiter`: a suspended sender's handle together with the
value it is still trying to deliver (channels.h:253-256). -/
structure SendWaiter (T : Type) where
  handle : CoroHandle
  value : T
  deriving DecidableEq

/-- The state of a `Channel<T>` (channels.h:258-263): `buffer_`,
`send_waiters_`, `receive_waiters_`, `capacity_`, `closed_`.  `std::queue`
is modelled as a list with the front at the head. -/
structure Channel (T : Type) where
  buffer : List T
  sendWaiters : List (SendWaiter T)
  receiveWaiters : List CoroHandle
  capacity : Nat
  closed : Bool
  deriving DecidableEq

/-- The `std::runtime_error`s thrown by the channel code, one constructor per
`throw` site in channels.h. -/
inductive ChanError where
  /-- thrown in `SendAwaiter::await_suspend` (channels.h:60): channel closed,
  cannot send. -/
  | closedAtSend : ChanError
  /-- thrown in `SendAwaiter::await_resume` (channels.h:89): channel closed,
  send failed. -/
  | closedAtSendResume : ChanError
  /-- thrown in `ReceiveAwaiter::await_resume` (channels.h:168): channel
  closed, cannot receive. -/
  | closedAtReceive : ChanError
  /-- thrown in `ReceiveAwaiter::await_resume` (channels.h:172): the
  "this should not happen" receive failure. -/
  | receiveAnomaly : ChanError
  deriving DecidableEq

/-- `Channel::SendAwaiter::await_ready` (channels.h:44-49). -/
def sendAwaitReady {T : Type} (ch : Channel T) : Bool :=
  !ch.closed &&
    (decide (ch.buffer.length < ch.capacity) || !ch.receiveWaiters.isEmpty)

/-- Effect of `Channel::SendAwaiter::await_suspend` (channels.h:56-82):
the updated channel, the handles it resumed, whether the sender parked
itself in `send_waiters_`, and the value moved into the awaiter's own
`receiver_result_` member (note: the code stores the handed-off value in the
SENDER's awaiter, not in the resumed receiver's awaiter). -/
structure SendSuspendResult (T : Type) where
  chan : Channel T
  resumed : List CoroHandle
  enqueuedSelf : Bool
  receiverResult : Option T
  deriving DecidableEq

/-- `Channel::SendAwaiter::await_suspend` (channels.h:56-82); `none` means it
threw `closedAtSend`. -/
def sendAwaitSuspend {T : Type} (ch : Channel T) (self : CoroHandle)
    (value : T) : Option (SendSuspendResult T) :=
  if ch.closed then
    none
  else
    match ch.receiveWaiters with
    | r :: rs =>
        some ⟨{ ch with receiveWaiters := rs }, [r], false, some value⟩
    | [] =>
        if ch.buffer.length < ch.capacity then
          some ⟨{ ch with buffer := ch.buffer ++ [value] }, [], false, none⟩
        else
          some ⟨{ ch with sendWaiters := ch.sendWaiters ++ [⟨self, value⟩] },
                [], true, none⟩

/-- `Channel::SendAwaiter::await_resume` (channels.h:87-91): throws if the
channel is closed, otherwise returns normally.  The outcome constructors
are shared with the driver below. -/
inductive SendOutcome where
  /-- the `co_await` completed and `await_resume` returned normally. -/
  | ok : SendOutcome
  /-- an exception propagated out of the `co_await`. -/
  | threw : ChanError → SendOutcome
  /-- the sender coroutine remained suspended after `await_suspend`. -/
  | suspendedHere : SendOutcome
  deriving DecidableEq

/-- `Channel::SendAwaiter::await_resume` (channels.h:87-91). -/
def sendAwaitResume {T : Type} (ch : Channel T) : SendOutcome :=
  if ch.closed then SendOutcome.threw ChanError.closedAtSendResume
  else SendOutcome.ok

/-- One `co_await channel.send(value)` step, following the C++ await
protocol: if `await_ready()` is true, `await_suspend` is skipped and
`await_resume` runs at once (so none of the buffering / handoff code in
`await_suspend` executes); otherwise the coroutine suspends and
`await_suspend` runs. -/
def coAwaitSend {T : Type} (ch : Channel T) (self : CoroHandle) (value : T) :
    Channel T × SendOutcome :=
  if sendAwaitReady ch then
    (ch, sendAwaitResume ch)
  else
    match sendAwaitSuspend ch self value with
    | none => (ch, SendOutcome.threw ChanError.closedAtSend)
    | some r => (r.chan, SendOutcome.suspendedHere)

/-- `Channel::ReceiveAwaiter::await_ready` (channels.h:111-116). -/
def receiveAwaitReady {T : Type} (ch : Channel T) : Bool :=
  !ch.buffer.isEmpty || !ch.sendWaiters.isEmpty || ch.closed

/-- Effect of `Channel::ReceiveAwaiter::await_suspend` (channels.h:121-157):
updated channel, the awaiter's `result_` member after the call, handles
resumed, and whether the receiver parked itself in `receive_waiters_`. -/
structure RecvSuspendResult (T : Type) where
  chan : Channel T
  result : Option T
  resumed : List CoroHandle
  enqueuedSelf : Bool
  deriving DecidableEq

/-- `Channel::ReceiveAwaiter::await_suspend` (channels.h:121-157). -/
def receiveAwaitSuspend {T : Type} (ch : Channel T) (self : CoroHandle) :
    RecvSuspendResult T :=
  match ch.buffer with
  | v :: rest =>
      match ch.sendWaiters with
      | w :: ws =>
          ⟨{ ch with buffer := rest ++ [w.value], sendWaiters := ws },
           some v, [w.handle], false⟩
      | [] => ⟨{ ch with buffer := rest }, some v, [], false⟩
  | [] =>
      match ch.sendWaiters with
      | w :: ws =>
          ⟨{ ch with sendWaiters := ws }, some w.value, [w.handle], false⟩
      | [] =>
          if ch.closed then ⟨ch, none, [], false⟩
          else ⟨{ ch with receiveWaiters := ch.receiveWaiters ++ [self] },
                none, [], true⟩

/-- Outcome of a `co_await channel.receive()`. -/
inductive RecvOutcome (T : Type) where
  /-- `await_resume` returned this value. -/
  | value : T → RecvOutcome T
  /-- an exception propagated out of the `co_await`. -/
  | threw : ChanError → RecvOutcome T
  /-- the receiver coroutine remained suspended after `await_suspend`. -/
  | suspendedHere : RecvOutcome T
  deriving DecidableEq

/-- `Channel::ReceiveAwaiter::await_resume` (channels.h:162-173), reading the
awaiter's `result_` member (which is `none` unless `await_suspend` set it). -/
def receiveAwaitResume {T : Type} (closed : Bool) (result : Option T) :
    RecvOutcome T :=
  match result with
  | some v => RecvOutcome.value v
  | none =>
      if closed then RecvOutcome.threw ChanError.closedAtReceive
      else RecvOutcome.threw ChanError.receiveAnomaly

/-- One `co_await channel.receive()` step, following the C++ await protocol.
On the `await_ready() == true` path the awaiter's `result_` member is still
empty, because only `await_suspend` (skipped on that path) ever writes it. -/
def coAwaitReceive {T : Type} (ch : Channel T) (self : CoroHandle) :
    Channel T × RecvOutcome T :=
  if receiveAwaitReady ch then
    (ch, receiveAwaitResume ch.closed none)
  else
    let r := receiveAwaitSuspend ch self
    (r.chan, RecvOutcome.suspendedHere)

/-- `Channel::close` (channels.h:204-223): idempotent; sets `closed_`, leaves
`buffer_` untouched, and resumes (first) every queued receiver and (then)
every queued sender.  Returns the handles resumed, in resumption order. -/
def Channel.close {T : Type} (ch : Channel T) : Channel T × List CoroHandle :=
  if ch.closed then (ch, [])
  else
    ({ ch with closed := true, receiveWaiters := [], sendWaiters := [] },
     ch.receiveWaiters ++ ch.sendWaiters.map SendWaiter.handle)

/-! ## Scheduler (src/basic/Coroutine/include/coroutine/scheduler.h) -/

/-- `Scheduler::Task` (scheduler.h:31-41): a (nullable) coroutine handle
tagged with an integer priority. -/
structure STask where
  handle : Option CoroHandle
  priority : Int
  deriving DecidableEq

/-- `Scheduler::Task::operator<` (scheduler.h:38-40): compares priorities
only; `std::priority_queue` is a max-heap over this ordering. -/
def taskLt (a b : STask) : Bool :=
  decide (a.priority < b.priority)

/-- `std::priority_queue<Task>::top()` modelled over the queue's contents:
a maximal element w.r.t. `taskLt` (the standard guarantees `top()` is a
largest element; ties are implementation-defined, this model keeps the
earliest-pushed one among equals). -/
def pqTop : STask → List STask → STask
  | t, [] => t
  | t, u :: us => if taskLt t u then pqTop u us else pqTop t us

/-- Remove the first occurrence of an element from the queue contents. -/
def pqErase : List STask → STask → List STask
  | [], _ => []
  | t :: ts, m => if t = m then ts else t :: pqErase ts m

/-- `top()` followed by `pop()` on `std::priority_queue<Task>`: yields a
maximal element and the remaining contents. -/
def pqPop : List STask → List STask × Option STask
  | [] => ([], none)
  | t :: ts => (pqErase (t :: ts) (pqTop t ts), some (pqTop t ts))

/-- Scheduler state (scheduler.h:238-244): `task_queue_` contents (in push
order), `running_`, `stop_requested_`.  The worker threads themselves are
modelled by the step function below. -/
structure Scheduler where
  running : Bool
  stopRequested : Bool
  taskQueue : List STask
  deriving DecidableEq

/-- `Scheduler::schedule(handle, priority)` (scheduler.h:115-130).  Returns
the updated scheduler and the list of handles it resumed inline on the
calling thread (non-empty only on the not-running path). -/
def Scheduler.schedule (s : Scheduler) (handle : Option CoroHandle)
    (priority : Int) : Scheduler × List CoroHandle :=
  if !s.running then
    match handle with
    | some c => if !c.done then (s, [c]) else (s, [])
    | none => (s, [])
  else
    ({ s with taskQueue := s.taskQueue ++ [⟨handle, priority⟩] }, [])

/-- A value thrown by C++ code: either an exception derived from
`std::exception` (the payload abstracts its identity) or an arbitrary other
thrown value (only catchable by `catch (...)`). -/
inductive ThrownValue where
  | stdException : Nat → ThrownValue
  | otherValue : Nat → ThrownValue
  deriving DecidableEq

/-- The `try { resume } catch (const std::exception&) {} catch (...) {}`
block of `Scheduler::worker_thread` (scheduler.h:222-234) applied to a popped
task.  `resume` models `handle.resume()`: `none` = returned normally,
`some e` = threw `e`.  Result: (handle actually resumed, exception escaping
the block). -/
def runTaskAtWorker (t : STask)
    (resume : CoroHandle → Option ThrownValue) :
    Option CoroHandle × Option ThrownValue :=
  match t.handle with
  | none => (none, none)
  | some c =>
      if !c.done then
        match resume c with
        | none => (some c, none)
        | some (ThrownValue.stdException _) => (some c, none)
        | some (ThrownValue.otherValue _) => (some c, none)
      else (none, none)

/-- One observable step of `Scheduler::worker_thread` (scheduler.h:200-236). -/
inductive WorkerStep where
  /-- `stop_requested_` was set: the loop breaks. -/
  | exited : WorkerStep
  /-- queue empty, no stop request: the worker waits on the condition
  variable. -/
  | blocked : WorkerStep
  /-- an exception escaped the resume step; this would terminate the worker
  thread (never actually reached, see the C9 theorem). -/
  | crashed : ThrownValue → WorkerStep
  /-- the worker finished one iteration and loops, with the new scheduler
  state and the handle it resumed (if any). -/
  | continued : Scheduler → Option CoroHandle → WorkerStep
  deriving DecidableEq

/-- One iteration of the `Scheduler::worker_thread` loop
(scheduler.h:200-236): wait until the queue is non-empty or stop is
requested; break on stop; otherwise pop the highest-priority task and resume
its handle inside the catch-all block. -/
def workerStep (s : Scheduler)
    (resume : CoroHandle → Option ThrownValue) : WorkerStep :=
  if s.stopRequested then WorkerStep.exited
  else
    match pqPop s.taskQueue with
    | (_, none) => WorkerStep.blocked
    | (q2, some tk) =>
        match runTaskAtWorker tk resume with
        | (r, none) =>
            WorkerStep.continued ⟨s.running, s.stopRequested, q2⟩ r
        | (_, some e) => WorkerStep.crashed e

/-- A single worker executing up to `fuel` loop iterations; collects the
handles it resumed, in order. -/
def workerRun : Nat → Scheduler → (CoroHandle → Option ThrownValue) →
    List CoroHandle
  | 0, _, _ => []
  | Nat.succ n, s, resume =>
      match workerStep s resume with
      | WorkerStep.continued s2 (some c) => c :: workerRun n s2 resume
      | WorkerStep.continued s2 none => workerRun n s2 resume
      | _ => []

/-- The priorities popped by successive dequeues of the ready queue. -/
def popAll : Nat → List STask → List Int
  | 0, _ => []
  | Nat.succ n, q =>
      match pqPop q with
      | (q2, some tk) => tk.priority :: popAll n q2
      | (_, none) => []

/-! ## Task (src/basic/Coroutine/include/coroutine/task.h) -/

/-- `Task<T>::promise_type::result_` (task.h:33): a
`std::variant<std::monostate, T, std::exception_ptr>`. -/
inductive TaskResult (T : Type) where
  | monostate : TaskResult T
  | value : T → TaskResult T
  | exn : ThrownValue → TaskResult T
  deriving DecidableEq

/-- An error raised when retrieving a task's result. -/
inductive GetError where
  /-- `std::rethrow_exception` of the stored `exception_ptr`
  (task.h:112). -/
  | rethrown : ThrownValue → GetError
  /-- `std::get<T>` on a variant currently holding `std::monostate` throws
  `std::bad_variant_access` (task.h:114). -/
  | badVariantAccess : GetError
  deriving DecidableEq

/-- Outcome of `get_result` / `TaskAwaiter::await_resume`: a value, or a
raised error. -/
inductive GetRes (T : Type) where
  | ok : T → GetRes T
  | raised : GetError → GetRes T
  deriving DecidableEq

/-- `Task<T>::promise_type::get_result` (task.h:110-115): rethrows a stored
exception; otherwise `std::get<T>`, which throws `std::bad_variant_access`
when the variant still holds `std::monostate`. -/
def getResult {T : Type} : TaskResult T → GetRes T
  | TaskResult.exn e => GetRes.raised (GetError.rethrown e)
  | TaskResult.value v => GetRes.ok v
  | TaskResult.monostate => GetRes.raised GetError.badVariantAccess

/-- The coroutine frame of a `Task<T>` body: whether any part of the body
has run, whether the coroutine is done (reached its final suspend point),
the promise's `result_` variant, and the promise's `continuation_`. -/
structure Task (T : Type) where
  bodyStarted : Bool
  coroDone : Bool
  result : TaskResult T
  continuation : Option CoroHandle
  deriving DecidableEq

/-- A task body, abstracted as the outcome it produces when it runs to its
end: `co_return v` or an unhandled throw. -/
inductive BodyOutcome (T : Type) where
  | returns : T → BodyOutcome T
  | throws : ThrownValue → BodyOutcome T
  deriving DecidableEq

/-- Resuming a suspended (at `initial_suspend`) task's coroutine: the body
runs to completion, `return_value` (task.h:85-94) or `unhandled_exception`
(task.h:101-103) writes the result slot, and `final_suspend`'s
`FinalAwaiter::await_suspend` (task.h:67-72) hands back the recorded
continuation (or `noop_coroutine`, modelled as `none`) as the coroutine to
run next. -/
def runBody {T : Type} (t : Task T) (body : BodyOutcome T) :
    Task T × Option CoroHandle :=
  ({ t with
      bodyStarted := true
      coroDone := true
      result :=
        match body with
        | BodyOutcome.returns v => TaskResult.value v
        | BodyOutcome.throws e => TaskResult.exn e },
   t.continuation)

/-- The initial-suspend policies a promise can choose. -/
inductive InitialSuspend where
  | suspendAlways
  | suspendNever
  deriving DecidableEq

/-- `Task<T>::promise_type::initial_suspend` (task.h:49) returns
`std::suspend_always`. -/
def taskInitialSuspend : InitialSuspend := InitialSuspend.suspendAlways

/-- Creating a `Task` (calling the coroutine function): the frame is
allocated with an empty result slot and no continuation, then
`initial_suspend` runs.  Under `suspend_always` the coroutine suspends
before any statement of the body; under `suspend_never` it would run the
body eagerly. -/
def taskCreate (T : Type) (body : BodyOutcome T) : Task T :=
  match taskInitialSuspend with
  | InitialSuspend.suspendAlways => ⟨false, false, TaskResult.monostate, none⟩
  | InitialSuspend.suspendNever =>
      (runBody ⟨false, false, TaskResult.monostate, none⟩ body).1

/-- `Task<T>::resume` (task.h:212-216): resume the coroutine if the handle
is not done, else no-op. -/
def Task.resume {T : Type} (t : Task T) (body : BodyOutcome T) :
    Task T × Option CoroHandle :=
  if !t.coroDone then runBody t body else (t, none)

/-- `Task<T>::TaskAwaiter::await_ready` (task.h:131-133). -/
def taskAwaitReady {T : Type} (t : Task T) : Bool := t.coroDone

/-- `Task<T>::TaskAwaiter::await_suspend` (task.h:142-145): record the
awaiting coroutine as the continuation, then resume the task's coroutine. -/
def taskAwaitSuspend {T : Type} (t : Task T) (awaiting : CoroHandle)
    (body : BodyOutcome T) : Task T × Option CoroHandle :=
  runBody { t with continuation := some awaiting } body

/-- `Task<T>::TaskAwaiter::await_resume` (task.h:152-154). -/
def taskAwaitResume {T : Type} (t : Task T) : GetRes T :=
  getResult t.result

/-- One `co_await task` step by coroutine `awaiting`, following the C++
await protocol.  On the not-ready path, `await_suspend` runs the task to
completion, its `FinalAwaiter` symmetric-transfers to the recorded
continuation (= `awaiting`), and the awaiter resumes at `await_resume`. -/
def coAwaitTask {T : Type} (t : Task T) (awaiting : CoroHandle)
    (body : BodyOutcome T) : Task T × GetRes T :=
  if taskAwaitReady t then (t, taskAwaitResume t)
  else
    let r := taskAwaitSuspend t awaiting body
    (r.1, taskAwaitResume r.1)

/-! ## ScheduledTask (src/basic/Coroutine/include/coroutine/scheduler.h) -/

/-- The scheduling-relevant fields of `ScheduledTask<T>::promise_type`
(scheduler.h:258-262): `continuation_`, `scheduler_` (a nullable pointer,
modelled by value since the model is sequential), `priority_`. -/
structure Promise where
  continuation : Option CoroHandle
  scheduler : Option Scheduler
  priority : Int
  deriving DecidableEq

/-- The `FinalAwaiter` built by `ScheduledTask<T>::promise_type::
final_suspend` (scheduler.h:273-296): it captures only `continuation_` and
`scheduler_` — not `priority_`. -/
structure FinalAwaiter where
  continuation : Option CoroHandle
  scheduler : Option Scheduler
  deriving DecidableEq

/-- `return FinalAwaiter{continuation_, scheduler_}` (scheduler.h:295). -/
def mkFinalAwaiter (p : Promise) : FinalAwaiter :=
  ⟨p.continuation, p.scheduler⟩

/-- `FinalAwaiter::await_suspend` (scheduler.h:280-290).  Returns: the
updated scheduler (if one is attached), the handle symmetric-transferred to
(`none` = `noop_coroutine`), and the handles resumed inline by a `schedule`
call that found the scheduler stopped between `is_running()` and taking its
lock (impossible in this sequential model, kept for faithfulness). -/
def finalAwaitSuspend (fa : FinalAwaiter) :
    Option Scheduler × Option CoroHandle × List CoroHandle :=
  match fa.continuation with
  | some c =>
      match fa.scheduler with
      | some s =>
          if s.running then
            let r := Scheduler.schedule s (some c) 0
            (some r.1, none, r.2)
          else (some s, some c, [])
      | none => (none, some c, [])
  | none => (fa.scheduler, none, [])

/-! ## Helper lemmas -/

/-- The head element never exceeds the priority returned by `pqTop`. -/
theorem pqTop_ge_self : ∀ (ts : List STask) (t : STask),
    t.priority ≤ (pqTop t ts).priority := by
  intro ts
  induction ts with
  | nil => intro t; exact le_refl _
  | cons v vs ih =>
      intro t
      show t.priority ≤ (if taskLt t v then pqTop v vs else pqTop t vs).priority
      by_cases h : taskLt t v = true
      · rw [if_pos h]
        have hv : t.priority < v.priority := by
          simpa [taskLt] using h
        exact le_trans (le_of_lt hv) (ih v)
      · rw [if_neg h]
        exact ih t

/-- No tail element exceeds the priority returned by `pqTop`. -/
theorem pqTop_ge_mem : ∀ (ts : List STask) (t u : STask), u ∈ ts →
    u.priority ≤ (pqTop t ts).priority := by
  intro ts
  induction ts with
  | nil => intro t u h; cases h
  | cons v vs ih =>
      intro t u h
      show u.priority ≤ (if taskLt t v then pqTop v vs else pqTop t vs).priority
      rcases List.mem_cons.mp h with rfl | hm
      · by_cases hc : taskLt t u = true
        · rw [if_pos hc]
          exact pqTop_ge_self vs u
        · rw [if_neg hc]
          have hle : u.priority ≤ t.priority := by
            have : ¬ t.priority < u.priority := by simpa [taskLt] using hc
            exact le_of_not_lt this
          exact le_trans hle (pqTop_ge_self vs t)
      · by_cases hc : taskLt t v = true
        · rw [if_pos hc]
          exact ih v u hm
        · rw [if_neg hc]
          exact ih t u hm

/-- `pqTop` yields a maximal-priority entry of the queue contents. -/
theorem pqTop_max : ∀ (t : STask) (ts : List STask) (u : STask),
    u ∈ t :: ts → u.priority ≤ (pqTop t ts).priority := by
  intro t ts u h
  rcases List.mem_cons.mp h with rfl | hm
  · exact pqTop_ge_self ts u
  · exact pqTop_ge_mem ts t u hm

/-- The worker's catch-all block never lets an exception escape. -/
theorem runTaskAtWorker_no_escape (t : STask)
    (resume : CoroHandle → Option ThrownValue) :
    (runTaskAtWorker t resume).2 = none := by
  match t with
  | ⟨none, p⟩ => rfl
  | ⟨some c, p⟩ =>
      show (runTaskAtWorker ⟨some c, p⟩ resume).2 = none
      by_cases hd : (!c.done) = true
      · simp only [runTaskAtWorker, if_pos hd]
        cases resume c with
        | none => rfl
        | some e => cases e <;> rfl
      · simp only [runTaskAtWorker, if_neg hd]

/-! ## Example states used by concrete claims -/

/-- C1 failing input: open channel of capacity 2, buffer already holding the
value 1, no waiters. -/
def chanC1 : Channel Nat := ⟨[1], [], [], 2, false⟩

/-- C2 failing input (space path): open, empty channel of capacity 1. -/
def chanC2a : Channel Nat := ⟨[], [], [], 1, false⟩

/-- C2 failing input (handoff path): open capacity-0 channel with one
receiver already parked in `receive_waiters_`. -/
def chanC2b : Channel Nat := ⟨[], [], [⟨4, false⟩], 0, false⟩

/-- C3 failing input: open channel of capacity 1 holding the value 7,
about to be closed. -/
def chanC3 : Channel Nat := ⟨[7], [], [], 1, false⟩

/-- A running scheduler with an empty ready queue. -/
def schedStart : Scheduler := ⟨true, false, []⟩

/-- C6 scenario: three continuations enqueued with priorities 1, 10, 5 on a
running scheduler, in that order. -/
def schedC6 : Scheduler :=
  (Scheduler.schedule
    (Scheduler.schedule
      (Scheduler.schedule schedStart (some ⟨1, false⟩) 1).1
      (some ⟨2, false⟩) 10).1
    (some ⟨3, false⟩) 5).1

/-- C4 failing input: a promise whose task has priority 5, a running
attached scheduler with an empty queue, and a recorded continuation. -/
def promiseC4 : Promise := ⟨some ⟨7, false⟩, some ⟨true, false, []⟩, 5⟩

/-! ## Claim theorems -/

/-- Claim C1: the claim says a `receive()` on a channel with a non-empty
buffer succeeds immediately and returns the front value, removing it.  The
code does not do this: because `ReceiveAwaiter::await_ready` returns `true`,
`await_suspend` — the only code that pops the buffer and fills the awaiter's
`result_` — is skipped, so `await_resume` finds `result_` empty and throws
the "receive operation anomaly" `std::runtime_error`, leaving the buffer
untouched.  This theorem evaluates the code at the failing input. -/
theorem C1_receive_nonempty_buffer_throws :
    coAwaitReceive chanC1 ⟨9, false⟩ =
      (chanC1, RecvOutcome.threw ChanError.receiveAnomaly) ∧
    (coAwaitReceive chanC1 ⟨9, false⟩).1.buffer = [1] ∧
    (coAwaitReceive chanC1 ⟨9, false⟩).2 ≠ RecvOutcome.value 1 := by
  decide

/-- Claim C2: the claim says `send(value)` on an open channel with spare
capacity appends the value at the buffer tail, and with a waiting receiver
hands the value to that receiver.  The code does neither: because
`SendAwaiter::await_ready` returns `true` in both situations,
`await_suspend` — the only code that pushes into the buffer or performs the
handoff — is skipped; `await_resume` returns normally and the value is
silently dropped (buffer unchanged, the waiting receiver still parked).
This theorem evaluates the code at the two failing inputs. -/
theorem C2_send_drops_value :
    coAwaitSend chanC2a ⟨8, false⟩ 42 = (chanC2a, SendOutcome.ok) ∧
    (coAwaitSend chanC2a ⟨8, false⟩ 42).1.buffer = [] ∧
    coAwaitSend chanC2b ⟨8, false⟩ 42 = (chanC2b, SendOutcome.ok) ∧
    (coAwaitSend chanC2b ⟨8, false⟩ 42).1.receiveWaiters = [⟨4, false⟩] := by
  decide

/-- Claim C3: the claim says that after `close()` on a channel still holding
a buffered value, the next `receive()` returns that value and only the one
after fails with `ChannelClosed`.  In the code, `close()` does leave the
buffer intact, but the next `receive()` has `await_ready() == true` (the
channel is closed), `await_suspend` is skipped, `result_` stays empty, and
`await_resume` throws the `ChannelClosed` error immediately — the buffered
value is never delivered.  This theorem evaluates the code at the failing
input. -/
theorem C3_close_then_receive_throws :
    (Channel.close chanC3).1 = ⟨[7], [], [], 1, true⟩ ∧
    coAwaitReceive (Channel.close chanC3).1 ⟨2, false⟩ =
      ((Channel.close chanC3).1, RecvOutcome.threw ChanError.closedAtReceive) ∧
    (coAwaitReceive (Channel.close chanC3).1 ⟨2, false⟩).2 ≠
      RecvOutcome.value 7 := by
  decide

/-- Claim C4 counterexample: with an attached running scheduler, a recorded
continuation and task priority 5, the completing task's `FinalAwaiter` calls
`scheduler->schedule(continuation)` — it does not even capture `priority_` —
so the continuation is enqueued with the default priority 0, not with the
task's priority 5 as the claim states. -/
theorem C4_final_suspend_priority_counterexample :
    (finalAwaitSuspend (mkFinalAwaiter promiseC4)).1 =
      some ⟨true, false, [⟨some ⟨7, false⟩, 0⟩]⟩ ∧
    (finalAwaitSuspend (mkFinalAwaiter promiseC4)).1 ≠
      some ⟨true, false, [⟨some ⟨7, false⟩, 5⟩]⟩ := by
  decide

/-- Claim C4 (amended): when a `ScheduledTask` with an attached running
scheduler and an awaiting continuation completes, its continuation is handed
to the scheduler via `schedule(continuation)` and is therefore enqueued with
the default priority 0, regardless of the task's attached priority; the
completing coroutine itself transfers to `noop_coroutine` and nothing is
resumed inline. -/
theorem C4_final_suspend_enqueues_default_priority :
    ∀ (c : CoroHandle) (s : Scheduler) (p : Int),
      s.running = true →
      finalAwaitSuspend (mkFinalAwaiter ⟨some c, some s, p⟩) =
        (some { s with taskQueue := s.taskQueue ++ [⟨some c, 0⟩] },
         none, []) := by
  intro c s p h
  simp [finalAwaitSuspend, mkFinalAwaiter, Scheduler.schedule, h]

/-- Witness for C4 (amended) at a concrete promise. -/
theorem C4_final_suspend_enqueues_default_priority_witness :
    finalAwaitSuspend (mkFinalAwaiter ⟨some ⟨7, false⟩, some ⟨true, false, []⟩, 5⟩) =
      (some ⟨true, false, [⟨some ⟨7, false⟩, 0⟩]⟩, none, []) :=
  C4_final_suspend_enqueues_default_priority ⟨7, false⟩ ⟨true, false, []⟩ 5 rfl

/-- Claim C5: calling `schedule(handle, p)` on a scheduler that is not
running resumes a non-done handle inline on the caller's thread before
`schedule` returns, and adds nothing to the task queue — the work is not
dropped. -/
theorem C5_stopped_scheduler_resumes_inline :
    ∀ (s : Scheduler) (c : CoroHandle) (p : Int),
      s.running = false → c.done = false →
      Scheduler.schedule s (some c) p = (s, [c]) := by
  intro s c p h1 h2
  simp [Scheduler.schedule, h1, h2]

/-- Witness for C5 at a concrete stopped scheduler. -/
theorem C5_stopped_scheduler_resumes_inline_witness :
    Scheduler.schedule ⟨false, false, []⟩ (some ⟨5, false⟩) 2 =
      (⟨false, false, []⟩, [⟨5, false⟩]) :=
  C5_stopped_scheduler_resumes_inline ⟨false, false, []⟩ ⟨5, false⟩ 2 rfl rfl

/-- Claim C6: with three continuations enqueued at priorities 1, 10, 5, a
single worker dequeues and resumes them in the order 10, 5, 1 (handles 2, 3,
1 here), and in general every dequeue yields a highest-priority entry of the
queue. -/
theorem C6_priority_order :
    popAll 3 schedC6.taskQueue = [10, 5, 1] ∧
    workerRun 3 schedC6 (fun _ => none) =
      [⟨2, false⟩, ⟨3, false⟩, ⟨1, false⟩] ∧
    (∀ (t : STask) (ts : List STask) (u : STask),
      u ∈ t :: ts → u.priority ≤ (pqTop t ts).priority) :=
  ⟨by decide, by decide, pqTop_max⟩

/-- Witness for C6's general highest-priority conjunct at a concrete
queue. -/
theorem C6_priority_order_witness :
    (⟨none, 3⟩ : STask).priority ≤ (pqTop ⟨none, 3⟩ []).priority :=
  C6_priority_order.2.2 ⟨none, 3⟩ [] ⟨none, 3⟩ (List.mem_cons_self _ _)

/-- Claim C7: creating a `Task` runs no part of its body (`initial_suspend`
is `suspend_always`, so the frame is created suspended with an empty result
slot), and `co_await`ing it both records the awaiter as the task's
continuation and triggers the first resumption of the body; an explicit
`resume()` also triggers the body. -/
theorem C7_task_is_lazy :
    ∀ (T : Type) (body : BodyOutcome T) (aw : CoroHandle),
      (taskCreate T body).bodyStarted = false ∧
      (taskCreate T body).result = TaskResult.monostate ∧
      (coAwaitTask (taskCreate T body) aw body).1.continuation = some aw ∧
      (coAwaitTask (taskCreate T body) aw body).1.bodyStarted = true ∧
      ((taskCreate T body).resume body).1.bodyStarted = true := by
  intro T body aw
  exact ⟨rfl, rfl, rfl, rfl, rfl⟩

/-- Claim C8: a task body that throws has its exception captured by
`unhandled_exception` and stored in the promise's result variant (the
resumption step itself completes normally), and `co_await`ing the task
re-raises exactly that stored exception; a body that returns a value makes
`co_await` return that value. -/
theorem C8_error_capture_and_rethrow :
    ∀ (T : Type) (e : ThrownValue) (v : T) (aw : CoroHandle),
      (coAwaitTask (taskCreate T (BodyOutcome.throws e)) aw
        (BodyOutcome.throws e)).1.result = TaskResult.exn e ∧
      (coAwaitTask (taskCreate T (BodyOutcome.throws e)) aw
        (BodyOutcome.throws e)).2 = GetRes.raised (GetError.rethrown e) ∧
      (coAwaitTask (taskCreate T (BodyOutcome.returns v)) aw
        (BodyOutcome.returns v)).2 = GetRes.ok v := by
  intro T e v aw
  exact ⟨rfl, rfl, rfl⟩

/-- Claim C9: whatever a resumed continuation throws — a value derived from
`std::exception` or any other thrown value — the worker's catch-all block
swallows it: no exception escapes the popped-task execution, the worker
never crashes, and with a non-empty queue and no stop request the worker
step always continues the loop. -/
theorem C9_worker_swallows_exceptions :
    ∀ (resume : CoroHandle → Option ThrownValue),
      (∀ tk : STask, (runTaskAtWorker tk resume).2 = none) ∧
      (∀ (s : Scheduler) (t : STask) (ts : List STask),
        s.stopRequested = false → s.taskQueue = t :: ts →
        ∃ (s2 : Scheduler) (r : Option CoroHandle),
          workerStep s resume = WorkerStep.continued s2 r) := by
  intro resume
  constructor
  · intro tk
    exact runTaskAtWorker_no_escape tk resume
  · intro s t ts h1 h2
    refine ⟨⟨s.running, s.stopRequested, pqErase (t :: ts) (pqTop t ts)⟩,
      (runTaskAtWorker (pqTop t ts) resume).1, ?_⟩
    have hp2 := runTaskAtWorker_no_escape (pqTop t ts) resume
    have hpair : runTaskAtWorker (pqTop t ts) resume =
        ((runTaskAtWorker (pqTop t ts) resume).1, none) := by
      rw [← hp2]
    simp only [workerStep, h1, h2, if_neg (by simp : ¬ false = true), pqPop]
    rw [hpair]

/-- Witness for C9 at a concrete scheduler and a resume function that throws
a non-`std::exception` value. -/
theorem C9_worker_swallows_exceptions_witness :
    (∀ tk : STask,
      (runTaskAtWorker tk (fun _ => some (ThrownValue.otherValue 0))).2
        = none) ∧
    (∀ (s : Scheduler) (t : STask) (ts : List STask),
      s.stopRequested = false → s.taskQueue = t :: ts →
      ∃ (s2 : Scheduler) (r : Option CoroHandle),
        workerStep s (fun _ => some (ThrownValue.otherValue 0)) =
          WorkerStep.continued s2 r) :=
  C9_worker_swallows_exceptions (fun _ => some (ThrownValue.otherValue 0))

/-- Claim C10: while a `Task<T>`'s result variant still holds
`std::monostate` (the body has not completed), `get_result` — and hence
`TaskAwaiter::await_resume` — never returns a `T`; it raises
`std::bad_variant_access` from `std::get<T>` on the monostate-holding
variant. -/
theorem C10_get_result_before_completion :
    ∀ (T : Type) (t : Task T), t.result = TaskResult.monostate →
      taskAwaitResume t = GetRes.raised GetError.badVariantAccess ∧
      ∀ v : T, taskAwaitResume t ≠ GetRes.ok v := by
  intro T t h
  have h1 : taskAwaitResume t = GetRes.raised GetError.badVariantAccess := by
    rw [taskAwaitResume, h]
    rfl
  refine ⟨h1, ?_⟩
  intro v hv
  rw [h1] at hv
  exact GetRes.noConfusion hv

/-- Witness for C10 at a freshly created task. -/
theorem C10_get_result_before_completion_witness :
    taskAwaitResume (taskCreate Nat (BodyOutcome.returns 0)) =
      GetRes.raised GetError.badVariantAccess ∧
    ∀ v : Nat, taskAwaitResume (taskCreate Nat (BodyOutcome.returns 0)) ≠
      GetRes.ok v :=
  C10_get_result_before_completion Nat (taskCreate Nat (BodyOutcome.returns 0))
    rfl

end CoroRT
